import Mathlib

/-!
# Shallow embedding of the Smart-Farm IDS/IPS subsystem

This file embeds the detection and request-interception code of the
Smart-farm security system (`app/anomaly_detection.py`,
`app/security_middleware.py`, `app/routes/sensor.py`) as executable Lean
definitions and proves the spec's claims about them.

Conventions of the embedding:
* Python `float` values (temperatures, humidities, confidences, UNIX
  timestamps) are modelled as `ℚ`; all code under scrutiny only compares,
  adds, averages and divides these values.
* `datetime` values are modelled as rational UNIX timestamps (seconds);
  `timedelta(minutes=10)` becomes `600`, etc.
* The SQLAlchemy session is modelled as explicit state: the telemetry
  table is a `List SensorData` and the security tables are lists that the
  operations append to.
* Python `dict`/`defaultdict` state is modelled as association lists with
  a default on lookup.
-/

namespace SmartFarm

/-- `app/models.py` `SensorData`: one persisted sensor reading. -/
structure SensorData where
  id : Nat
  sensor_id : String
  temperature : ℚ
  humidity : ℚ
  timestamp : ℚ
deriving Repr, DecidableEq

/-- `app/schemas.py` `AnomalyDetectionResult`: one transient detector finding. -/
structure AnomalyDetectionResult where
  sensor_id : String
  anomaly_type : String
  severity : String
  current_value : ℚ
  expected_range : String
  confidence : ℚ
  timestamp : ℚ
deriving Repr, DecidableEq

/-- `app/models.py` `SecurityEvent` (fields set by the code paths embedded here;
`id`/`timestamp`/`resolved_at` are database-generated and not modelled). -/
structure SecurityEvent where
  event_type : String
  severity : String
  source_ip : Option String
  sensor_id : Option String
  description : String
  details : Option String
  status : String
deriving Repr, DecidableEq

/-- `app/models.py` `ThreatAlert` (fields set by `log_security_event`).
`action_taken` is an `Option` so that the spec's "non-null" can be stated;
the constructor site always supplies a value. -/
structure ThreatAlert where
  alert_type : String
  threat_level : String
  source_ip : Option String
  target_endpoint : Option String
  action_taken : Option String
  description : String
deriving Repr, DecidableEq

/-- The persistent state threaded through the embedded operations:
the telemetry table plus the two security tables. -/
structure DBState where
  sensorData : List SensorData
  securityEvents : List SecurityEvent
  threatAlerts : List ThreatAlert
deriving Repr, DecidableEq

def emptyDB : DBState := ⟨[], [], []⟩

/-! ## Threshold classifier (`AnomalyDetector._check_temperature_anomaly` /
`_check_humidity_anomaly`, `app/anomaly_detection.py` lines 173–243)

The threshold dictionaries of `AnomalyDetector.__init__` are inlined as the
numeric constants below; the `expected_range` strings are the Python
`f"{normal_range[0]}°C - {normal_range[1]}°C"` renderings of the constant
`normal_range` pairs. `now` stands for `datetime.utcnow()` at call time. -/

def checkTemperatureAnomaly (temperature : ℚ) (sensor_id : String) (now : ℚ) :
    Option AnomalyDetectionResult :=
  if temperature ≥ 45 then
    some { sensor_id := sensor_id, anomaly_type := "critical_temperature_high",
           severity := "critical", current_value := temperature,
           expected_range := "15.0°C - 30.0°C", confidence := 95/100, timestamp := now }
  else if temperature ≤ -10 then
    some { sensor_id := sensor_id, anomaly_type := "critical_temperature_low",
           severity := "critical", current_value := temperature,
           expected_range := "15.0°C - 30.0°C", confidence := 95/100, timestamp := now }
  else if temperature ≥ 35 then
    some { sensor_id := sensor_id, anomaly_type := "high_temperature_warning",
           severity := "high", current_value := temperature,
           expected_range := "15.0°C - 30.0°C", confidence := 75/100, timestamp := now }
  else if temperature ≤ 5 then
    some { sensor_id := sensor_id, anomaly_type := "low_temperature_warning",
           severity := "high", current_value := temperature,
           expected_range := "15.0°C - 30.0°C", confidence := 75/100, timestamp := now }
  else none

def checkHumidityAnomaly (humidity : ℚ) (sensor_id : String) (now : ℚ) :
    Option AnomalyDetectionResult :=
  if humidity ≥ 95 then
    some { sensor_id := sensor_id, anomaly_type := "critical_humidity_high",
           severity := "critical", current_value := humidity,
           expected_range := "40.0% - 70.0%", confidence := 95/100, timestamp := now }
  else if humidity ≤ 15 then
    some { sensor_id := sensor_id, anomaly_type := "critical_humidity_low",
           severity := "critical", current_value := humidity,
           expected_range := "40.0% - 70.0%", confidence := 95/100, timestamp := now }
  else if humidity ≥ 85 then
    some { sensor_id := sensor_id, anomaly_type := "high_humidity_warning",
           severity := "high", current_value := humidity,
           expected_range := "40.0% - 70.0%", confidence := 75/100, timestamp := now }
  else if humidity ≤ 25 then
    some { sensor_id := sensor_id, anomaly_type := "low_humidity_warning",
           severity := "high", current_value := humidity,
           expected_range := "40.0% - 70.0%", confidence := 75/100, timestamp := now }
  else none

/-- The timestamp-free content of a finding (everything the classifier
computes from the reading itself, as opposed to the wall clock). -/
def findingContent (a : AnomalyDetectionResult) :
    String × String × String × ℚ × String × ℚ :=
  (a.sensor_id, a.anomaly_type, a.severity, a.current_value, a.expected_range, a.confidence)

/-! ## Database queries over the telemetry table

The SQLAlchemy queries `order_by(timestamp.desc())` are modelled by a
structural insertion sort on the rational timestamps (descending). -/

def insertByTimestampDesc (r : SensorData) : List SensorData → List SensorData
  | [] => [r]
  | x :: xs =>
      if r.timestamp ≤ x.timestamp then x :: insertByTimestampDesc r xs
      else r :: x :: xs

def sortByTimestampDesc : List SensorData → List SensorData
  | [] => []
  | r :: rs => insertByTimestampDesc r (sortByTimestampDesc rs)

/-- The query of `_detect_rapid_changes` (lines 250–255): readings of the same
sensor in the last 10 minutes, excluding the current record, newest first,
capped at 5. -/
def recentReadingsForTrend (db : List SensorData) (current : SensorData) (now : ℚ) :
    List SensorData :=
  (sortByTimestampDesc (db.filter (fun r =>
      decide (r.sensor_id = current.sensor_id ∧ now - 600 ≤ r.timestamp ∧ r.id ≠ current.id)))).take 5

/-- The query of `detect_suspicious_patterns` (lines 306–310): all readings of
the sensor from the last hour, newest first, uncapped. -/
def readingsLastHour (db : List SensorData) (sensor_id : String) (now : ℚ) :
    List SensorData :=
  sortByTimestampDesc (db.filter (fun r =>
      decide (r.sensor_id = sensor_id ∧ now - 3600 ≤ r.timestamp)))

/-! ## Trend detector (`AnomalyDetector._detect_rapid_changes`,
`app/anomaly_detection.py` lines 245–288)

`statistics.mean` is the arithmetic mean; the `expected_range` message embeds
the one-decimal rendering of the average, modelled by `formatRange` below
(a fixed-point rendering of the rational; no claim depends on this string). -/

def formatOneDecimal (q : ℚ) : String :=
  let n : ℤ := round (q * 10)
  toString ((n : ℚ) / 10)

def detectRapidChanges (db : List SensorData) (current : SensorData) (now : ℚ) :
    List AnomalyDetectionResult :=
  let recent := recentReadingsForTrend db current now
  if 2 ≤ recent.length then
    let avg_temp := (recent.map (·.temperature)).sum / recent.length
    let avg_humidity := (recent.map (·.humidity)).sum / recent.length
    let tempPart : List AnomalyDetectionResult :=
      if 15 < |current.temperature - avg_temp| then
        [{ sensor_id := current.sensor_id, anomaly_type := "rapid_temperature_change",
           severity := "high", current_value := current.temperature,
           expected_range := "Within ±10°C of recent average (" ++ formatOneDecimal avg_temp ++ "°C)",
           confidence := 85/100, timestamp := now }]
      else []
    let humidityPart : List AnomalyDetectionResult :=
      if 30 < |current.humidity - avg_humidity| then
        [{ sensor_id := current.sensor_id, anomaly_type := "rapid_humidity_change",
           severity := "high", current_value := current.humidity,
           expected_range := "Within ±20% of recent average (" ++ formatOneDecimal avg_humidity ++ "%)",
           confidence := 85/100, timestamp := now }]
      else []
    tempPart ++ humidityPart
  else []

/-! ## Pattern detector (`AnomalyDetector.detect_suspicious_patterns`,
`app/anomaly_detection.py` lines 301–346) -/

/-- Python `x % 1 == 0` on a nonnegative-or-negative float: the value is an
integer. On `ℚ` this is `den = 1`. -/
def isIntegral (q : ℚ) : Prop := q.den = 1

instance : DecidablePred isIntegral := fun q => inferInstanceAs (Decidable (q.den = 1))

def detectSuspiciousPatterns (db : List SensorData) (sensor_id : String) (now : ℚ) :
    List AnomalyDetectionResult :=
  match readingsLastHour db sensor_id now with
  | [] => []
  | r0 :: rest =>
    if 10 ≤ (r0 :: rest).length then
      -- `for i in range(1, len(recent_readings))`: the count runs over ALL
      -- readings of the trailing hour, not only the most recent 10.
      let identical_count :=
        (rest.filter (fun r =>
            decide (r.temperature = r0.temperature ∧ r.humidity = r0.humidity))).length
      let identicalPart : List AnomalyDetectionResult :=
        if 5 ≤ identical_count then
          [{ sensor_id := sensor_id, anomaly_type := "identical_readings_pattern",
             severity := "medium", current_value := r0.temperature,
             expected_range := "Variable readings expected",
             confidence := 80/100, timestamp := now }]
        else []
      let precise_readings :=
        (((r0 :: rest).take 10).filter (fun r =>
            decide (isIntegral r.temperature ∧ isIntegral r.humidity))).length
      let precisePart : List AnomalyDetectionResult :=
        if 8 ≤ precise_readings then
          [{ sensor_id := sensor_id, anomaly_type := "unrealistic_precision_pattern",
             severity := "medium", current_value := r0.temperature,
             expected_range := "Natural sensor variation expected",
             confidence := 70/100, timestamp := now }]
        else []
      identicalPart ++ precisePart
    else []

/-- The count the spec describes for the replay signature: matches of index 0's
temperature and humidity among the MOST RECENT 10 readings only (indices
1 onward).  Stated from the spec's words, for comparison against
`detectSuspiciousPatterns`, which counts over the whole trailing hour. -/
def identicalCountTop10 (db : List SensorData) (sensor_id : String) (now : ℚ) : Nat :=
  match (readingsLastHour db sensor_id now).take 10 with
  | [] => 0
  | r0 :: rest =>
    (rest.filter (fun r =>
        decide (r.temperature = r0.temperature ∧ r.humidity = r0.humidity))).length

/-! ## Escalation sink (`AnomalyDetector.create_security_event_from_anomaly`,
`app/anomaly_detection.py` lines 348–380) -/

/-- The `severity_mapping` dict lookup with `.get(severity, "medium")`. -/
def severityMapping (s : String) : String :=
  if s = "critical" then "critical"
  else if s = "high" then "high"
  else if s = "medium" then "medium"
  else if s = "low" then "low"
  else "medium"

/-- `json.dumps(details)` for the anomaly payload.  The exact JSON rendering of
floats is immaterial to every claim; this rendering keeps the same keys in the
same order. -/
def anomalyDetailsJson (a : AnomalyDetectionResult) : String :=
  "\x7b\"anomaly_type\": \"" ++ a.anomaly_type ++
  "\", \"current_value\": " ++ toString a.current_value ++
  ", \"expected_range\": \"" ++ a.expected_range ++
  "\", \"confidence\": " ++ toString a.confidence ++
  ", \"detection_timestamp\": " ++ toString a.timestamp ++ "\x7d"

/-- `create_security_event_from_anomaly`: builds the SecurityEvent, adds and
commits it.  Note: this path creates NO ThreatAlert, for any severity. -/
def createSecurityEventFromAnomaly (db : DBState) (anomaly : AnomalyDetectionResult)
    (source_ip : Option String) : SecurityEvent × DBState :=
  let security_event : SecurityEvent :=
    { event_type := "anomaly",
      severity := severityMapping anomaly.severity,
      source_ip := source_ip,
      sensor_id := some anomaly.sensor_id,
      description := "Anomaly detected: " ++ anomaly.anomaly_type ++
                     " in sensor " ++ anomaly.sensor_id,
      details := some (anomalyDetailsJson anomaly),
      status := "open" }
  (security_event, { db with securityEvents := db.securityEvents ++ [security_event] })

/-! ## Request interceptor logger (`SecurityMiddleware.log_security_event`,
`app/security_middleware.py` lines 235–273) -/

/-- The keyword arguments the middleware's call sites pass to
`log_security_event` (`endpoint=`, `method=`, `action_taken=`). -/
structure LogKwargs where
  endpoint : Option String := none
  method : Option String := none
  action_taken : Option String := none
deriving Repr, DecidableEq

def LogKwargs.isEmpty (kw : LogKwargs) : Bool :=
  kw.endpoint.isNone && kw.method.isNone && kw.action_taken.isNone

/-- `json.dumps(kwargs)`; again, only presence matters to the claims. -/
def kwargsJson (kw : LogKwargs) : String :=
  "\x7b" ++ String.intercalate ", "
    (((kw.endpoint.map (fun e => "\"endpoint\": \"" ++ e ++ "\"")).toList) ++
     ((kw.method.map (fun m => "\"method\": \"" ++ m ++ "\"")).toList) ++
     ((kw.action_taken.map (fun a => "\"action_taken\": \"" ++ a ++ "\"")).toList)) ++ "\x7d"

/-- `log_security_event`: always persists a SecurityEvent; when severity is
`"critical"` or `"high"` it additionally persists exactly one ThreatAlert with
`action_taken = kwargs.get("action_taken", "logged")`. -/
def logSecurityEvent (db : DBState) (event_type severity source_ip description : String)
    (kwargs : LogKwargs) : DBState :=
  let security_event : SecurityEvent :=
    { event_type := event_type, severity := severity,
      source_ip := some source_ip, sensor_id := none,
      description := description,
      details := if kwargs.isEmpty then none else some (kwargsJson kwargs),
      status := "open" }
  let db1 := { db with securityEvents := db.securityEvents ++ [security_event] }
  if severity = "critical" ∨ severity = "high" then
    let threat_alert : ThreatAlert :=
      { alert_type := event_type, threat_level := severity,
        source_ip := some source_ip,
        target_endpoint := kwargs.endpoint,
        action_taken := some (kwargs.action_taken.getD "logged"),
        description := description }
    { db1 with threatAlerts := db1.threatAlerts ++ [threat_alert] }
  else db1

/-! ## Learned outlier model confidence (`AnomalyDetector._detect_anomalies_ml`,
`app/anomaly_detection.py` lines 102–151)

The Isolation-Forest model and scaler live in scikit-learn, outside this
repository; the embedded part is the confidence computation of lines 123–145,
taking the model's outputs (`prediction`, `score`) and the retained
`training_scores` as inputs. -/

/-- `scipy.stats.percentileofscore` with the default `kind="rank"` (library
function, modelled from its documentation/implementation): with `left` the
number of entries strictly below `score` and `right` the number of entries
`≤ score`, the result is `(left + right + (1 if right > left else 0)) * 50 / n`. -/
def percentileofscore (a : List ℚ) (score : ℚ) : ℚ :=
  let left := (a.filter (fun x => decide (x < score))).length
  let right := (a.filter (fun x => decide (x ≤ score))).length
  if a.length = 0 then 0
  else ((left : ℚ) + right + (if left < right then 1 else 0)) * 50 / a.length

/-- `np.clip(x, lo, hi)`. -/
def clip (x lo hi : ℚ) : ℚ := min (max x lo) hi

/-- Lines 127–134: the confidence attached to a flagged outlier, computed from
the training-score distribution and the reading's own score. -/
def mlOutlierConfidence (training_scores : List ℚ) (score : ℚ) : ℚ :=
  let anomaly_scores := training_scores.filter (fun s => decide (s < 0))
  let confidence : ℚ :=
    if 0 < anomaly_scores.length then 1 - percentileofscore anomaly_scores score / 100
    else 1
  clip confidence 0 1

/-- Lines 123–145: the `learned_outlier` finding branch.  The model's binary
prediction (−1 = outlier) and continuous score are inputs; the source builds
an `AnomalyDetectionResult` whose `current_value` is a formatted string, so
here the emitted finding is summarised by its (anomaly_type, severity,
confidence) triple. -/
def mlFinding (training_scores : List ℚ) (prediction : ℤ) (score : ℚ) :
    Option (String × String × ℚ) :=
  if prediction = -1 then
    some ("ml_detected_anomaly", "medium", mlOutlierConfidence training_scores score)
  else none

/-! ## Rate limiter & block list (`SecurityMiddleware`,
`app/security_middleware.py` lines 13–131)

`defaultdict(list)` / `defaultdict(int)` are modelled as association lists
with the defaults `[]` / `0` supplied on lookup. -/

def lookupAssoc {α : Type} (st : List (String × α)) (k : String) (d : α) : α :=
  match st.find? (fun p => p.1 == k) with
  | some p => p.2
  | none => d

def setAssoc {α : Type} : List (String × α) → String → α → List (String × α)
  | [], k, v => [(k, v)]
  | p :: rest, k, v => if p.1 = k then (k, v) :: rest else p :: setAssoc rest k v

/-- The middleware's in-process mutable state (`__init__`, lines 16–28).
`rateLimits` is `self.rate_limits` — per-endpoint `(limit, window)` pairs plus
the `"default"` entry. -/
structure MWState where
  rateLimitStorage : List (String × List ℚ)
  blockedIps : List String
  suspiciousActivities : List (String × Nat)
  rateLimits : List (String × (Nat × ℚ))
deriving Repr, DecidableEq

/-- The table assigned in `__init__`. -/
def defaultRateLimits : List (String × (Nat × ℚ)) :=
  [("/auth/login", (5, 300)), ("/sensor/add", (60, 60)), ("default", (100, 60))]

def initialMWState : MWState :=
  { rateLimitStorage := [], blockedIps := [], suspiciousActivities := [],
    rateLimits := defaultRateLimits }

/-- `self.rate_limits.get(endpoint, self.rate_limits["default"])`.  The final
`(100, 60)` arm is unreachable for any state whose table contains a
`"default"` entry, as `__init__` guarantees. -/
def rateConfig (table : List (String × (Nat × ℚ))) (endpoint : String) : Nat × ℚ :=
  match table.find? (fun p => p.1 == endpoint) with
  | some p => p.2
  | none =>
    match table.find? (fun p => p.1 == "default") with
    | some p => p.2
    | none => (100, 60)

/-- `is_rate_limited` (lines 92–131).  Returns the boolean decision together
with the updated middleware state and database (the blocking branch logs an
`ip_blocked` SecurityEvent through `log_security_event`). -/
def isRateLimited (mw : MWState) (db : DBState) (endpoint client_ip : String) (now : ℚ) :
    Bool × MWState × DBState :=
  let limit := (rateConfig mw.rateLimits endpoint).1
  let window := (rateConfig mw.rateLimits endpoint).2
  let key := client_ip ++ ":" ++ endpoint
  let cutoff_time := now - window
  let pruned := (lookupAssoc mw.rateLimitStorage key []).filter
      (fun req_time => decide (cutoff_time < req_time))
  let mw1 := { mw with rateLimitStorage := setAssoc mw.rateLimitStorage key pruned }
  if limit ≤ pruned.length then
    let newCount := lookupAssoc mw1.suspiciousActivities client_ip 0 + 1
    let mw2 := { mw1 with suspiciousActivities := setAssoc mw1.suspiciousActivities client_ip newCount }
    if 5 ≤ newCount then
      let mw3 := { mw2 with blockedIps :=
          if client_ip ∈ mw2.blockedIps then mw2.blockedIps else mw2.blockedIps ++ [client_ip] }
      let db1 := logSecurityEvent db "ip_blocked" "high" client_ip
          "IP blocked due to repeated rate limit violations"
          { action_taken := some "blocked" }
      (true, mw3, db1)
    else (true, mw2, db)
  else
    (false, { mw1 with rateLimitStorage := setAssoc mw1.rateLimitStorage key (pruned ++ [now]) }, db)

/-- The three ways `dispatch` can answer before/with the wrapped handler. -/
inductive DispatchOutcome
  | blocked      -- HTTP 403, "IP address blocked due to suspicious activity"
  | rateLimited  -- HTTP 429, "Rate limit exceeded. Please try again later."
  | proceed      -- request forwarded to `call_next`
deriving Repr, DecidableEq

/-- `dispatch` (lines 30–73) up to the point the request is either rejected or
forwarded: blocked-check first, then rate limiting (with its
`rate_limit_exceeded` event).  The post-handler audit logging and pattern
analysis depend on the handler's response and are outside the rejection
claims. -/
def dispatch (mw : MWState) (db : DBState) (client_ip endpoint method : String) (now : ℚ) :
    DispatchOutcome × MWState × DBState :=
  if client_ip ∈ mw.blockedIps then (.blocked, mw, db)
  else
    let r := isRateLimited mw db endpoint client_ip now
    if r.1 then
      (.rateLimited, r.2.1,
       logSecurityEvent r.2.2 "rate_limit_exceeded" "medium" client_ip
         ("Rate limit exceeded for endpoint " ++ endpoint)
         { endpoint := some endpoint, method := some method })
    else (.proceed, r.2.1, r.2.2)

/-- `reset_rate_limits` (lines 275–294): prune hour-old timestamps, drop empty
buckets, decay every suspicion counter by one and drop zeros.  It never
touches `blocked_ips`. -/
def resetRateLimits (mw : MWState) (now : ℚ) : MWState :=
  let storage := ((mw.rateLimitStorage.map (fun p =>
      (p.1, p.2.filter (fun req_time => decide (now - req_time < 3600))))).filter
      (fun p => !p.2.isEmpty))
  let susp := ((mw.suspiciousActivities.map (fun p => (p.1, p.2 - 1))).filter
      (fun p => p.2 ≠ 0))
  { mw with rateLimitStorage := storage, suspiciousActivities := susp }

/-- Sequential requests from one client against one endpoint, returning the
per-request outcomes and the final state. -/
def runRequests (mw : MWState) (db : DBState) (client_ip endpoint method : String) :
    List ℚ → List DispatchOutcome × MWState × DBState
  | [] => ([], mw, db)
  | t :: ts =>
    let r := dispatch mw db client_ip endpoint method t
    let rest := runRequests r.2.1 r.2.2 client_ip endpoint method ts
    (r.1 :: rest.1, rest.2)

/-! ## Ingestion route (`create_sensor_data`, `app/routes/sensor.py` lines
11–69) and flooding check (`detect_data_flooding`, lines 290–299 of
`app/anomaly_detection.py`) -/

def detectDataFlooding (db : DBState) (sensor_id : String) (now : ℚ) : Bool :=
  let count := (db.sensorData.filter (fun r =>
      decide (r.sensor_id = sensor_id ∧ now - 60 ≤ r.timestamp))).length
  20 < count

/-- `detect_sensor_anomalies` in the rule-based configuration
(`model_trained = False`).  Nothing in the repository ever calls
`train_model`, so the global detector stays in this configuration. -/
def detectAnomaliesRuleBased (db : List SensorData) (d : SensorData) (now : ℚ) :
    List AnomalyDetectionResult :=
  (checkTemperatureAnomaly d.temperature d.sensor_id now).toList ++
  (checkHumidityAnomaly d.humidity d.sensor_id now).toList ++
  detectRapidChanges db d now

/-- The request body `schemas.SensorDataCreate`. -/
structure SensorDataCreate where
  sensor_id : String
  sensor_type : String
  temperature : ℚ
  humidity : ℚ
deriving Repr, DecidableEq

inductive IngestResult
  | created (d : SensorData)        -- HTTP 200, the stored row
  | badRequest (detail : String)    -- HTTP 400
  | tooManyRequests (detail : String)  -- HTTP 429 (flooding)
deriving Repr, DecidableEq

/-- `create_sensor_data`: range validation first, then the flooding check
(whose rejection persists a `data_flooding` SecurityEvent — the commit survives
the subsequent rollback), then persistence and rule-based detection with one
SecurityEvent per finding.  `newId` is the database-assigned primary key. -/
def createSensorData (db : DBState) (input : SensorDataCreate) (client_ip : String)
    (now : ℚ) (newId : Nat) : IngestResult × DBState :=
  if input.temperature < -50 ∨ 100 < input.temperature then
    (.badRequest "Temperature out of valid range", db)
  else if input.humidity < 0 ∨ 100 < input.humidity then
    (.badRequest "Humidity out of valid range", db)
  else if detectDataFlooding db input.sensor_id now then
    let flood : AnomalyDetectionResult :=
      { sensor_id := input.sensor_id, anomaly_type := "data_flooding",
        severity := "high", current_value := 1,
        expected_range := "Within rate limits", confidence := 1, timestamp := now }
    let db1 := (createSecurityEventFromAnomaly db flood (some client_ip)).2
    (.tooManyRequests "Too many requests from this sensor", db1)
  else
    let new_data : SensorData :=
      { id := newId, sensor_id := input.sensor_id,
        temperature := input.temperature, humidity := input.humidity, timestamp := now }
    let db1 := { db with sensorData := db.sensorData ++ [new_data] }
    let anomalies := detectAnomaliesRuleBased db1.sensorData new_data now
    let db2 := anomalies.foldl
        (fun d a => (createSecurityEventFromAnomaly d a (some client_ip)).2) db1
    (.created new_data, db2)

/-! ## Concrete scenarios used by witnesses and counterexamples -/

/-- A concrete critical finding fed to the Escalation Sink. -/
def exCriticalFinding : AnomalyDetectionResult :=
  { sensor_id := "s1", anomaly_type := "critical_temperature_high",
    severity := "critical", current_value := 50,
    expected_range := "15.0°C - 30.0°C", confidence := 95/100, timestamp := 0 }

/-- The spec-side replay count restricted to the whole trailing hour, as the
code actually computes it: matches of index 0's temperature and humidity among
ALL hour readings at indices 1 onward. -/
def identicalCountAllHour (db : List SensorData) (sensor_id : String) (now : ℚ) : Nat :=
  match readingsLastHour db sensor_id now with
  | [] => 0
  | r0 :: rest =>
    (rest.filter (fun r =>
        decide (r.temperature = r0.temperature ∧ r.humidity = r0.humidity))).length

/-- Fifteen readings of sensor `"s"` in one hour, newest first at timestamps
1500, 1490, …, 1360: the nine readings after the newest all differ from it,
while the five oldest match it exactly.  Within the most recent ten readings
there are no matches at all, but the whole hour holds five. -/
def exDb6 : List SensorData :=
  [⟨0, "s", 20, 50, 1500⟩,
   ⟨1, "s", 21, 50, 1490⟩, ⟨2, "s", 22, 50, 1480⟩, ⟨3, "s", 23, 50, 1470⟩,
   ⟨4, "s", 24, 50, 1460⟩, ⟨5, "s", 25, 50, 1450⟩, ⟨6, "s", 26, 50, 1440⟩,
   ⟨7, "s", 27, 50, 1430⟩, ⟨8, "s", 28, 50, 1420⟩, ⟨9, "s", 29, 50, 1410⟩,
   ⟨10, "s", 20, 50, 1400⟩, ⟨11, "s", 20, 50, 1390⟩, ⟨12, "s", 20, 50, 1380⟩,
   ⟨13, "s", 20, 50, 1370⟩, ⟨14, "s", 20, 50, 1360⟩]

/-- Ten readings of sensor `"p"`, the first six sharing temperature and
humidity (five matches of index 0 among indices 1–9). -/
def exDb6w : List SensorData :=
  [⟨0, "p", 20, 50, 1500⟩,
   ⟨1, "p", 20, 50, 1490⟩, ⟨2, "p", 20, 50, 1480⟩, ⟨3, "p", 20, 50, 1470⟩,
   ⟨4, "p", 20, 50, 1460⟩, ⟨5, "p", 20, 50, 1450⟩, ⟨6, "p", 26, 50, 1440⟩,
   ⟨7, "p", 27, 50, 1430⟩, ⟨8, "p", 28, 50, 1420⟩, ⟨9, "p", 29, 50, 1410⟩]

/-- A telemetry store holding 21 readings of sensor `"s1"` inside the trailing
minute — enough to trip the flooding check (`count > 20`). -/
def exDbFlood : DBState :=
  { emptyDB with sensorData := (List.range 21).map (fun i =>
      { id := i, sensor_id := "s1", temperature := 20, humidity := 50,
        timestamp := 1000 }) }

/-- A fresh middleware state whose table maps endpoint `"/water/valve"` to
limit 5, window 60 s — the configuration named by the rate-limiting property. -/
def exMwWindow : MWState :=
  { rateLimitStorage := [], blockedIps := [], suspiciousActivities := [],
    rateLimits := [("/water/valve", (5, 60)), ("default", (100, 60))] }

/-- A middleware state one violation away from blocking: client `"7.7.7.7"`
already has 4 suspicion points and a full login-endpoint window. -/
def exMwNearBlock : MWState :=
  { rateLimitStorage := [("7.7.7.7:/auth/login", [0, 1, 2, 3, 4])],
    blockedIps := [],
    suspiciousActivities := [("7.7.7.7", 4)],
    rateLimits := defaultRateLimits }

/-! # Theorems -/

section Lemmas

lemma lookupAssoc_setAssoc_same {α : Type} (st : List (String × α)) (k : String) (v d : α) :
    lookupAssoc (setAssoc st k v) k d = v := by
  induction st with
  | nil => simp [setAssoc, lookupAssoc, List.find?]
  | cons p rest ih =>
    by_cases h : p.1 = k
    · simp [setAssoc, h, lookupAssoc, List.find?]
    · simp only [setAssoc, if_neg h, lookupAssoc, List.find?]
      rw [show (p.1 == k) = false from beq_eq_false_iff_ne.mpr h]
      exact ih

lemma setAssoc_setAssoc_same {α : Type} (st : List (String × α)) (k : String) (a b : α) :
    setAssoc (setAssoc st k a) k b = setAssoc st k b := by
  induction st with
  | nil => simp [setAssoc]
  | cons p rest ih =>
    by_cases h : p.1 = k
    · simp [setAssoc, h]
    · simp [setAssoc, h, ih]

lemma filter_keep_all (c : ℚ) (l : List ℚ) (h : ∀ t ∈ l, c < t) :
    l.filter (fun t => decide (c < t)) = l :=
  List.filter_eq_self.mpr (fun t ht => decide_eq_true (h t ht))

lemma filter_drop_all (c : ℚ) (l : List ℚ) (h : ∀ t ∈ l, ¬(c < t)) :
    l.filter (fun t => decide (c < t)) = [] :=
  List.filter_eq_nil_iff.mpr (fun t ht => by simpa using h t ht)

/-- One allowed request: below the limit after pruning, the timestamp is
appended and the request proceeds. -/
lemma dispatch_allowed (storage : List (String × List ℚ)) (blocked : List String)
    (susp : List (String × Nat)) (limits : List (String × (Nat × ℚ)))
    (db : DBState) (ip ep m : String) (now : ℚ) (l l' : List ℚ)
    (hblk : ip ∉ blocked)
    (hpruned : (lookupAssoc storage (ip ++ ":" ++ ep) []).filter
        (fun t => decide (now - (rateConfig limits ep).2 < t)) = l)
    (hlen : l.length < (rateConfig limits ep).1)
    (happ : l ++ [now] = l') :
    dispatch (MWState.mk storage blocked susp limits) db ip ep m now =
      (.proceed,
       MWState.mk (setAssoc storage (ip ++ ":" ++ ep) l') blocked susp limits, db) := by
  subst happ
  simp only [dispatch, isRateLimited, hpruned, if_neg hblk, if_neg (not_le.mpr hlen),
    setAssoc_setAssoc_same]
  simp

/-- One rate-limited request that does not yet trip the block threshold. -/
lemma dispatch_limited_noblock (storage : List (String × List ℚ)) (blocked : List String)
    (susp : List (String × Nat)) (limits : List (String × (Nat × ℚ)))
    (db : DBState) (ip ep m : String) (now : ℚ) (l : List ℚ)
    (hblk : ip ∉ blocked)
    (hpruned : (lookupAssoc storage (ip ++ ":" ++ ep) []).filter
        (fun t => decide (now - (rateConfig limits ep).2 < t)) = l)
    (hlen : (rateConfig limits ep).1 ≤ l.length)
    (hcnt : ¬ 5 ≤ lookupAssoc susp ip 0 + 1) :
    dispatch (MWState.mk storage blocked susp limits) db ip ep m now =
      (.rateLimited,
       MWState.mk (setAssoc storage (ip ++ ":" ++ ep) l) blocked
         (setAssoc susp ip (lookupAssoc susp ip 0 + 1)) limits,
       logSecurityEvent db "rate_limit_exceeded" "medium" ip
         ("Rate limit exceeded for endpoint " ++ ep)
         { endpoint := some ep, method := some m }) := by
  simp only [dispatch, isRateLimited, hpruned, if_neg hblk, if_pos hlen, if_neg hcnt]
  simp

lemma runRequests_cons (mw mw' : MWState) (db db' : DBState) (ip ep m : String)
    (t : ℚ) (ts : List ℚ) (o : DispatchOutcome)
    (h : dispatch mw db ip ep m t = (o, mw', db')) :
    runRequests mw db ip ep m (t :: ts) =
      (o :: (runRequests mw' db' ip ep m ts).1, (runRequests mw' db' ip ep m ts).2) := by
  simp only [runRequests, h]

lemma blockedIps_mono_isRateLimited (mw : MWState) (db : DBState) (ep ip ip2 : String)
    (now : ℚ) (h : ip ∈ mw.blockedIps) :
    ip ∈ ((isRateLimited mw db ep ip2 now).2.1).blockedIps := by
  simp only [isRateLimited]
  split_ifs with h1 h2 h3
  · exact h
  · exact List.mem_append_left _ h
  · exact h
  · exact h

end Lemmas

/-- C4: for every reading with temperature `t ≥ 45.0` the Threshold Classifier
returns the `critical_temperature_high` finding with severity `critical` and
confidence `0.95`, never a `high_temperature_warning` for the same reading,
and at most one temperature finding is produced per reading (the tiers are
checked critical-high first). -/
theorem threshold_critical_high_spec (t : ℚ) (sid : String) (now : ℚ) (h : 45 ≤ t) :
    checkTemperatureAnomaly t sid now =
      some { sensor_id := sid, anomaly_type := "critical_temperature_high",
             severity := "critical", current_value := t,
             expected_range := "15.0°C - 30.0°C", confidence := 95/100, timestamp := now } ∧
    (∀ a, checkTemperatureAnomaly t sid now = some a →
        a.anomaly_type ≠ "high_temperature_warning") ∧
    (∀ t' : ℚ, (checkTemperatureAnomaly t' sid now).toList.length ≤ 1) := by
  have hmain : checkTemperatureAnomaly t sid now =
      some { sensor_id := sid, anomaly_type := "critical_temperature_high",
             severity := "critical", current_value := t,
             expected_range := "15.0°C - 30.0°C", confidence := 95/100, timestamp := now } := by
    unfold checkTemperatureAnomaly
    rw [if_pos h]
  refine ⟨hmain, ?_, ?_⟩
  · intro a ha
    rw [hmain] at ha
    cases ha
    show "critical_temperature_high" ≠ "high_temperature_warning"
    decide
  · intro t'
    unfold checkTemperatureAnomaly
    split_ifs <;> simp

/-- Witness for C4 at the concrete reading t = 50. -/
theorem threshold_critical_high_witness :
    checkTemperatureAnomaly 50 "greenhouse-1" 0 =
      some { sensor_id := "greenhouse-1", anomaly_type := "critical_temperature_high",
             severity := "critical", current_value := 50,
             expected_range := "15.0°C - 30.0°C", confidence := 95/100, timestamp := 0 } :=
  (threshold_critical_high_spec 50 "greenhouse-1" 0 (by norm_num)).1

/-- C9: the Threshold Classifier is a pure function of the reading: on the same
temperature, humidity and sensor id its findings agree in every field except
the wall-clock timestamp, whatever the two invocation times are. -/
theorem threshold_classifier_deterministic (t h : ℚ) (sid : String) (now1 now2 : ℚ) :
    (checkTemperatureAnomaly t sid now1).map findingContent =
      (checkTemperatureAnomaly t sid now2).map findingContent ∧
    (checkHumidityAnomaly h sid now1).map findingContent =
      (checkHumidityAnomaly h sid now2).map findingContent := by
  constructor
  · unfold checkTemperatureAnomaly
    split_ifs <;> rfl
  · unfold checkHumidityAnomaly
    split_ifs <;> rfl

/-- C10: a finding whose severity is none of critical/high/medium/low is not
rejected: the Escalation Sink still appends one SecurityEvent, with the
mapping's default severity `"medium"`, event_type `"anomaly"` and status
`"open"`. -/
theorem escalation_unknown_severity_defaults (db : DBState)
    (a : AnomalyDetectionResult) (ip : Option String)
    (h : a.severity ≠ "critical" ∧ a.severity ≠ "high" ∧
         a.severity ≠ "medium" ∧ a.severity ≠ "low") :
    (createSecurityEventFromAnomaly db a ip).1.severity = "medium" ∧
    (createSecurityEventFromAnomaly db a ip).1.event_type = "anomaly" ∧
    (createSecurityEventFromAnomaly db a ip).1.status = "open" ∧
    (createSecurityEventFromAnomaly db a ip).2.securityEvents =
      db.securityEvents ++ [(createSecurityEventFromAnomaly db a ip).1] := by
  obtain ⟨h1, h2, h3, h4⟩ := h
  unfold createSecurityEventFromAnomaly severityMapping
  simp [h1, h2, h3, h4]

/-- Witness for C10 at the unmapped severity `"urgent"`. -/
theorem escalation_unknown_severity_witness :
    (createSecurityEventFromAnomaly emptyDB
        ⟨"s7", "weird_anomaly", "urgent", 1, "r", 1/2, 0⟩ (some "8.8.8.8")).1.severity =
      "medium" :=
  (escalation_unknown_severity_defaults emptyDB
      ⟨"s7", "weird_anomaly", "urgent", 1, "r", 1/2, 0⟩ (some "8.8.8.8")
      (by refine ⟨?_, ?_, ?_, ?_⟩ <;> decide)).1

/-- C7: when the trained model flags a reading (prediction = −1), the emitted
finding's confidence is `1 − percentileofscore/100` over the training set's
below-zero scores, clamped to [0,1]; with no below-zero training scores it is
exactly 1.0; and the confidence always lies in [0,1]. -/
theorem ml_confidence_spec (ts : List ℚ) (score : ℚ) :
    (ts.filter (fun s => decide (s < 0)) = [] → mlOutlierConfidence ts score = 1) ∧
    (ts.filter (fun s => decide (s < 0)) ≠ [] →
      mlOutlierConfidence ts score =
        clip (1 - percentileofscore (ts.filter (fun s => decide (s < 0))) score / 100) 0 1) ∧
    0 ≤ mlOutlierConfidence ts score ∧ mlOutlierConfidence ts score ≤ 1 ∧
    (∀ p : String × String × ℚ, mlFinding ts (-1) score = some p →
        p.2.2 = mlOutlierConfidence ts score) := by
  refine ⟨?_, ?_, ?_, ?_, ?_⟩
  · intro h
    unfold mlOutlierConfidence
    rw [h]
    norm_num [clip]
  · intro h
    simp only [mlOutlierConfidence]
    rw [if_pos (List.length_pos.mpr h)]
  · unfold mlOutlierConfidence clip
    exact le_min (le_max_right _ _) zero_le_one
  · unfold mlOutlierConfidence clip
    exact min_le_right _ _
  · intro p hp
    unfold mlFinding at hp
    rw [if_pos rfl] at hp
    cases hp
    rfl

/-- Witness for C7: a clean training distribution gives confidence exactly 1,
and a distribution with below-zero scores follows the clamped percentile
formula. -/
theorem ml_confidence_witness :
    mlOutlierConfidence [1, 2, 3] (-5) = 1 ∧
    mlOutlierConfidence [-1, -2, 3] 0 =
      clip (1 - percentileofscore (([-1, -2, 3] : List ℚ).filter (fun s => decide (s < 0))) 0 / 100) 0 1 :=
  ⟨(ml_confidence_spec [1, 2, 3] (-5)).1 (by decide),
   (ml_confidence_spec [-1, -2, 3] 0).2.1 (by decide)⟩

/-- C1 counterexample: the Escalation Sink (`create_security_event_from_anomaly`)
persists a SecurityEvent with severity `"critical"` yet creates NO ThreatAlert
— refuting the claim that every critical/high SecurityEvent from this path has
exactly one corresponding ThreatAlert. -/
theorem escalation_sink_no_alert_counterexample :
    (createSecurityEventFromAnomaly emptyDB exCriticalFinding (some "10.0.0.5")).1.severity =
      "critical" ∧
    (createSecurityEventFromAnomaly emptyDB exCriticalFinding (some "10.0.0.5")).2.threatAlerts =
      [] :=
  ⟨rfl, rfl⟩

/-- C1 (amended): only the Request Interceptor's logger (`log_security_event`)
escalates: a SecurityEvent it logs with severity `"critical"` or `"high"` comes
with exactly one ThreatAlert whose `source_ip` matches and whose `action_taken`
is non-null (defaulting to `"logged"`); severities other than critical/high add
no ThreatAlert; and `create_security_event_from_anomaly` never adds a
ThreatAlert, whatever the finding's severity. -/
theorem log_security_event_escalation (db : DBState) (et sev ip desc : String)
    (kw : LogKwargs) :
    (sev = "critical" ∨ sev = "high" →
      ∃ alert : ThreatAlert,
        (logSecurityEvent db et sev ip desc kw).threatAlerts = db.threatAlerts ++ [alert] ∧
        alert.source_ip = some ip ∧ alert.action_taken.isSome = true ∧
        alert.threat_level = sev ∧ alert.alert_type = et) ∧
    (¬(sev = "critical" ∨ sev = "high") →
      (logSecurityEvent db et sev ip desc kw).threatAlerts = db.threatAlerts) ∧
    (∀ (a : AnomalyDetectionResult) (src : Option String),
      (createSecurityEventFromAnomaly db a src).2.threatAlerts = db.threatAlerts) := by
  refine ⟨?_, ?_, ?_⟩
  · intro h
    unfold logSecurityEvent
    rw [if_pos h]
    exact ⟨_, rfl, rfl, rfl, rfl, rfl⟩
  · intro h
    unfold logSecurityEvent
    rw [if_neg h]
  · intro a src
    rfl

/-- Witness for C1 (amended): a concrete high-severity `ip_blocked` log yields
exactly one alert with the matching source ip and a non-null action. -/
theorem log_security_event_escalation_witness :
    ∃ alert : ThreatAlert,
      (logSecurityEvent emptyDB "ip_blocked" "high" "9.9.9.9" "blocked it"
          { action_taken := some "blocked" }).threatAlerts =
        emptyDB.threatAlerts ++ [alert] ∧
      alert.source_ip = some "9.9.9.9" ∧ alert.action_taken.isSome = true ∧
      alert.threat_level = "high" ∧ alert.alert_type = "ip_blocked" :=
  (log_security_event_escalation emptyDB "ip_blocked" "high" "9.9.9.9" "blocked it"
      { action_taken := some "blocked" }).1 (Or.inr rfl)

/-- C5: with at least 2 prior readings of the same sensor in the trailing
10-minute window (capped at the 5 most recent, current record excluded), the
Trend Detector emits a `rapid_temperature_change` finding (severity high,
confidence 0.85) exactly when the current temperature differs from those
readings' mean by more than 15.0; with fewer than 2 prior readings it emits
nothing at all. -/
theorem rapid_temperature_change_spec (db : List SensorData) (current : SensorData)
    (now : ℚ) :
    (2 ≤ (recentReadingsForTrend db current now).length →
      ((∃ a ∈ detectRapidChanges db current now,
          a.anomaly_type = "rapid_temperature_change" ∧ a.severity = "high" ∧
          a.confidence = 85/100)
        ↔ 15 < |current.temperature -
            ((recentReadingsForTrend db current now).map (·.temperature)).sum /
              (recentReadingsForTrend db current now).length|)) ∧
    ((recentReadingsForTrend db current now).length < 2 →
      detectRapidChanges db current now = []) := by
  constructor
  · intro h2
    simp only [detectRapidChanges]
    rw [if_pos h2]
    split_ifs with hT hH hH
    · exact iff_of_true
        ⟨_, List.mem_append_left _ (List.mem_singleton_self _), rfl, rfl, rfl⟩ hT
    · exact iff_of_true
        ⟨_, List.mem_append_left _ (List.mem_singleton_self _), rfl, rfl, rfl⟩ hT
    · refine iff_of_false ?_ hT
      rintro ⟨a, ha, hty, -, -⟩
      rw [List.nil_append, List.mem_singleton] at ha
      subst ha
      have hne : ("rapid_humidity_change" : String) ≠ "rapid_temperature_change" := by decide
      exact hne hty
    · refine iff_of_false ?_ hT
      rintro ⟨a, ha, -⟩
      exact absurd ha (List.not_mem_nil a)
  · intro h2
    simp only [detectRapidChanges]
    rw [if_neg (by omega)]

/-- Witness for C5: two prior readings averaging 21 °C and a current reading of
40 °C (deviation 19 > 15) produce the finding. -/
theorem rapid_temperature_change_witness :
    (∃ a ∈ detectRapidChanges
        [⟨1, "s", 20, 50, 100⟩, ⟨2, "s", 22, 50, 110⟩] ⟨3, "s", 40, 50, 120⟩ 120,
      a.anomaly_type = "rapid_temperature_change" ∧ a.severity = "high" ∧
      a.confidence = 85/100) :=
  ((rapid_temperature_change_spec
      [⟨1, "s", 20, 50, 100⟩, ⟨2, "s", 22, 50, 110⟩] ⟨3, "s", 40, 50, 120⟩ 120).1
    (by norm_num [recentReadingsForTrend, sortByTimestampDesc, insertByTimestampDesc]))
    |>.mpr
    (by norm_num [recentReadingsForTrend, sortByTimestampDesc, insertByTimestampDesc])

/-- C6 counterexample: in `exDb6` (15 readings in the trailing hour) the most
recent 10 readings contain NO match of index 0's temperature-and-humidity
pair, yet the Pattern Detector emits `identical_readings_pattern`, because the
code counts matches over every reading of the trailing hour, not only the most
recent 10. -/
theorem identical_readings_top10_counterexample :
    (detectSuspiciousPatterns exDb6 "s" 1500).map (·.anomaly_type) =
      ["identical_readings_pattern", "unrealistic_precision_pattern"] ∧
    identicalCountTop10 exDb6 "s" 1500 = 0 := by
  constructor
  · norm_num [detectSuspiciousPatterns, readingsLastHour, exDb6, sortByTimestampDesc,
      insertByTimestampDesc, isIntegral]
  · norm_num [identicalCountTop10, readingsLastHour, exDb6, sortByTimestampDesc,
      insertByTimestampDesc]

/-- C6 (amended): with at least 10 readings in the trailing hour, the Pattern
Detector emits `identical_readings_pattern` (severity medium, confidence 0.80)
exactly when the number of readings in the WHOLE trailing hour (indices 1
onward) whose temperature and humidity both equal index 0's values is ≥ 5. -/
theorem identical_readings_spec (db : List SensorData) (sid : String) (now : ℚ)
    (h10 : 10 ≤ (readingsLastHour db sid now).length) :
    ((∃ a ∈ detectSuspiciousPatterns db sid now,
        a.anomaly_type = "identical_readings_pattern" ∧ a.severity = "medium" ∧
        a.confidence = 80/100)
      ↔ 5 ≤ identicalCountAllHour db sid now) := by
  cases hq : readingsLastHour db sid now with
  | nil => rw [hq] at h10; exact absurd h10 (by norm_num)
  | cons r0 rest =>
    rw [hq] at h10
    unfold detectSuspiciousPatterns identicalCountAllHour
    rw [hq]
    simp only
    rw [if_pos h10]
    split_ifs with hc hp hp
    · exact iff_of_true
        ⟨_, List.mem_append_left _ (List.mem_singleton_self _), rfl, rfl, rfl⟩ hc
    · exact iff_of_true
        ⟨_, List.mem_append_left _ (List.mem_singleton_self _), rfl, rfl, rfl⟩ hc
    · refine iff_of_false ?_ hc
      rintro ⟨a, ha, hty, -, -⟩
      rw [List.nil_append, List.mem_singleton] at ha
      subst ha
      have hne : ("unrealistic_precision_pattern" : String) ≠ "identical_readings_pattern" := by
        decide
      exact hne hty
    · refine iff_of_false ?_ hc
      rintro ⟨a, ha, -⟩
      exact absurd ha (List.not_mem_nil a)

/-- Witness for C6 (amended): ten readings with five exact matches of the
newest one produce the finding. -/
theorem identical_readings_spec_witness :
    (∃ a ∈ detectSuspiciousPatterns exDb6w "p" 1500,
        a.anomaly_type = "identical_readings_pattern" ∧ a.severity = "medium" ∧
        a.confidence = 80/100) :=
  (identical_readings_spec exDb6w "p" 1500
      (by norm_num [readingsLastHour, exDb6w, sortByTimestampDesc, insertByTimestampDesc])).mpr
    (by norm_num [identicalCountAllHour, readingsLastHour, exDb6w, sortByTimestampDesc,
        insertByTimestampDesc])

/-- C8 counterexample: an in-range reading (temperature 20, humidity 50) is
nevertheless rejected — with the 429 flooding status, before persistence —
when its sensor already has 21 readings in the trailing minute.  Acceptance is
therefore not "exactly when" the ranges hold, only "only if". -/
theorem ingest_in_range_rejected_counterexample :
    ((-50 : ℚ) ≤ 20 ∧ (20 : ℚ) ≤ 100 ∧ (0 : ℚ) ≤ 50 ∧ (50 : ℚ) ≤ 100) ∧
    (createSensorData exDbFlood ⟨"s1", "temperature", 20, 50⟩ "1.1.1.1" 1000 99).1 =
      .tooManyRequests "Too many requests from this sensor" := by
  refine ⟨by norm_num, ?_⟩
  norm_num [createSensorData, detectDataFlooding, exDbFlood, emptyDB, List.range,
    List.range.loop]

/-- C8 (amended): the ingestion boundary accepts a reading only if
temperature ∈ [−50, 100] and humidity ∈ [0, 100] (boundaries included); every
out-of-range input is rejected with the HTTP 400 analog before the reading is
persisted and before any detector runs, leaving the whole database state —
telemetry store included — unchanged.  (An in-range reading can still be
rejected by the flooding check.) -/
theorem ingest_validation_spec (db : DBState) (input : SensorDataCreate)
    (ip : String) (now : ℚ) (newId : Nat) :
    (input.temperature < -50 ∨ 100 < input.temperature ∨
       input.humidity < 0 ∨ 100 < input.humidity →
      ∃ detail, createSensorData db input ip now newId = (.badRequest detail, db)) ∧
    (∀ d db2, createSensorData db input ip now newId = (.created d, db2) →
      -50 ≤ input.temperature ∧ input.temperature ≤ 100 ∧
      0 ≤ input.humidity ∧ input.humidity ≤ 100) := by
  constructor
  · intro h
    unfold createSensorData
    by_cases hT : input.temperature < -50 ∨ 100 < input.temperature
    · exact ⟨_, by rw [if_pos hT]⟩
    · have hH : input.humidity < 0 ∨ 100 < input.humidity := by tauto
      exact ⟨_, by rw [if_neg hT, if_pos hH]⟩
  · intro d db2 h
    unfold createSensorData at h
    split_ifs at h with h1 h2 h3
    · exact absurd h (by simp)
    · exact absurd h (by simp)
    · exact absurd h (by simp)
    · push_neg at h1 h2
      exact ⟨h1.1, h1.2, h2.1, h2.2⟩

/-- Witness for C8 (amended): temperature 150 is rejected with a 400 detail and
an unchanged database. -/
theorem ingest_validation_witness :
    ∃ detail, createSensorData emptyDB ⟨"s1", "temperature", 150, 50⟩ "1.1.1.1" 0 1 =
      (.badRequest detail, emptyDB) :=
  (ingest_validation_spec emptyDB ⟨"s1", "temperature", 150, 50⟩ "1.1.1.1" 0 1).1
    (by norm_num)

/-- C2: (a) a rate-limit violation that brings a client's suspicion counter to
5 or more puts the client in the block list immediately; (b) a blocked
client's request is answered with the blocked status, regardless of endpoint,
leaving every counter and the database untouched; (c) block-list membership
survives any further request and (d) the periodic maintenance sweep — nothing
in the middleware removes it. -/
theorem blocklist_spec (mw : MWState) (db : DBState) (ip ip2 ep m : String) (now : ℚ) :
    ((isRateLimited mw db ep ip now).1 = true →
      5 ≤ lookupAssoc ((isRateLimited mw db ep ip now).2.1).suspiciousActivities ip 0 →
      ip ∈ ((isRateLimited mw db ep ip now).2.1).blockedIps) ∧
    (ip ∈ mw.blockedIps → dispatch mw db ip ep m now = (.blocked, mw, db)) ∧
    (ip ∈ mw.blockedIps → ip ∈ ((dispatch mw db ip2 ep m now).2.1).blockedIps) ∧
    (ip ∈ mw.blockedIps → ip ∈ (resetRateLimits mw now).blockedIps) := by
  refine ⟨?_, ?_, ?_, ?_⟩
  · simp only [isRateLimited]
    split_ifs with h1 h2 h3
    · intro _ _
      exact h3
    · intro _ _
      exact List.mem_append_right _ (List.mem_singleton_self ip)
    · intro _ hcnt
      rw [lookupAssoc_setAssoc_same] at hcnt
      exact absurd hcnt h2
    · intro hfalse _
      exact absurd hfalse (by simp)
  · intro h
    unfold dispatch
    rw [if_pos h]
  · intro h
    simp only [dispatch]
    split_ifs with hb hr
    · exact h
    · exact blockedIps_mono_isRateLimited mw db ep ip ip2 now h
    · exact blockedIps_mono_isRateLimited mw db ep ip ip2 now h
  · intro h
    exact h

/-- Witness for C2: the fifth violation of client `"7.7.7.7"` lands it in the
block list, and a blocked client `"6.6.6.6"` is turned away outright with the
state unchanged. -/
theorem blocklist_spec_witness :
    "7.7.7.7" ∈ ((isRateLimited exMwNearBlock emptyDB "/auth/login" "7.7.7.7" 10).2.1).blockedIps ∧
    dispatch { exMwNearBlock with blockedIps := ["6.6.6.6"] } emptyDB "6.6.6.6" "/sensor/add"
        "POST" 10 =
      (.blocked, { exMwNearBlock with blockedIps := ["6.6.6.6"] }, emptyDB) :=
  ⟨(blocklist_spec exMwNearBlock emptyDB "7.7.7.7" "x" "/auth/login" "m" 10).1
      (by norm_num [isRateLimited, exMwNearBlock, defaultRateLimits, rateConfig,
        lookupAssoc, setAssoc, List.find?,
        show ("7.7.7.7" ++ ":" ++ "/auth/login" : String) = "7.7.7.7:/auth/login" from rfl])
      (by norm_num [isRateLimited, exMwNearBlock, defaultRateLimits, rateConfig,
        lookupAssoc, setAssoc, List.find?,
        show ("7.7.7.7" ++ ":" ++ "/auth/login" : String) = "7.7.7.7:/auth/login" from rfl]),
   (blocklist_spec { exMwNearBlock with blockedIps := ["6.6.6.6"] } emptyDB "6.6.6.6" "x"
      "/sensor/add" "POST" 10).2.1 (List.mem_singleton_self _)⟩

/-- C3: for a (client, endpoint) pair configured with limit = 5 and
window = 60 s, starting from a fresh window and an unsuspicious, unblocked
client, five requests inside one 60-second window all proceed, the sixth
inside the same window is rejected as rate-limited, and a later request whose
distance from the five recorded timestamps exceeds the window (so they are all
pruned) proceeds again. -/
theorem rate_limit_window_spec (mw : MWState) (db : DBState) (ip ep m : String)
    (t1 t2 t3 t4 t5 t6 t7 : ℚ)
    (hcfg : rateConfig mw.rateLimits ep = (5, 60))
    (hfresh : lookupAssoc mw.rateLimitStorage (ip ++ ":" ++ ep) [] = [])
    (hsusp : lookupAssoc mw.suspiciousActivities ip 0 = 0)
    (hblk : ip ∉ mw.blockedIps)
    (h12 : t1 ≤ t2) (h23 : t2 ≤ t3) (h34 : t3 ≤ t4) (h45 : t4 ≤ t5) (h56 : t5 ≤ t6)
    (hwin : t6 < t1 + 60) (h7 : t5 ≤ t7 - 60) :
    (runRequests mw db ip ep m [t1, t2, t3, t4, t5, t6, t7]).1 =
      [.proceed, .proceed, .proceed, .proceed, .proceed, .rateLimited, .proceed] := by
  obtain ⟨storage, blocked, susp, limits⟩ := mw
  have hcfg' : rateConfig limits ep = (5, 60) := hcfg
  have hfresh' : lookupAssoc storage (ip ++ ":" ++ ep) [] = [] := hfresh
  have hsusp' : lookupAssoc susp ip 0 = 0 := hsusp
  have hblk' : ip ∉ blocked := hblk
  have s1 := dispatch_allowed storage blocked susp limits db ip ep m t1 [] [t1] hblk'
    (by rw [hfresh']; exact List.filter_nil _)
    (by rw [hcfg']; norm_num) rfl
  have s2 := dispatch_allowed (setAssoc storage (ip ++ ":" ++ ep) [t1]) blocked susp limits
    db ip ep m t2 [t1] [t1, t2] hblk'
    (by
      rw [lookupAssoc_setAssoc_same, hcfg']
      apply filter_keep_all
      intro x hx
      simp only [List.mem_cons, List.not_mem_nil, or_false] at hx
      show t2 - 60 < x
      rcases hx with rfl
      linarith)
    (by rw [hcfg']; norm_num) rfl
  have s3 := dispatch_allowed
    (setAssoc (setAssoc storage (ip ++ ":" ++ ep) [t1]) (ip ++ ":" ++ ep) [t1, t2])
    blocked susp limits db ip ep m t3 [t1, t2] [t1, t2, t3] hblk'
    (by
      rw [lookupAssoc_setAssoc_same, hcfg']
      apply filter_keep_all
      intro x hx
      simp only [List.mem_cons, List.not_mem_nil, or_false] at hx
      show t3 - 60 < x
      rcases hx with rfl | rfl <;> linarith)
    (by rw [hcfg']; norm_num) rfl
  have s4 := dispatch_allowed
    (setAssoc (setAssoc (setAssoc storage (ip ++ ":" ++ ep) [t1]) (ip ++ ":" ++ ep) [t1, t2])
      (ip ++ ":" ++ ep) [t1, t2, t3])
    blocked susp limits db ip ep m t4 [t1, t2, t3] [t1, t2, t3, t4] hblk'
    (by
      rw [lookupAssoc_setAssoc_same, hcfg']
      apply filter_keep_all
      intro x hx
      simp only [List.mem_cons, List.not_mem_nil, or_false] at hx
      show t4 - 60 < x
      rcases hx with rfl | rfl | rfl <;> linarith)
    (by rw [hcfg']; norm_num) rfl
  have s5 := dispatch_allowed
    (setAssoc (setAssoc (setAssoc (setAssoc storage (ip ++ ":" ++ ep) [t1])
        (ip ++ ":" ++ ep) [t1, t2]) (ip ++ ":" ++ ep) [t1, t2, t3])
      (ip ++ ":" ++ ep) [t1, t2, t3, t4])
    blocked susp limits db ip ep m t5 [t1, t2, t3, t4] [t1, t2, t3, t4, t5] hblk'
    (by
      rw [lookupAssoc_setAssoc_same, hcfg']
      apply filter_keep_all
      intro x hx
      simp only [List.mem_cons, List.not_mem_nil, or_false] at hx
      show t5 - 60 < x
      rcases hx with rfl | rfl | rfl | rfl <;> linarith)
    (by rw [hcfg']; norm_num) rfl
  have s6 := dispatch_limited_noblock
    (setAssoc (setAssoc (setAssoc (setAssoc (setAssoc storage (ip ++ ":" ++ ep) [t1])
        (ip ++ ":" ++ ep) [t1, t2]) (ip ++ ":" ++ ep) [t1, t2, t3])
      (ip ++ ":" ++ ep) [t1, t2, t3, t4]) (ip ++ ":" ++ ep) [t1, t2, t3, t4, t5])
    blocked susp limits db ip ep m t6 [t1, t2, t3, t4, t5] hblk'
    (by
      rw [lookupAssoc_setAssoc_same, hcfg']
      apply filter_keep_all
      intro x hx
      simp only [List.mem_cons, List.not_mem_nil, or_false] at hx
      show t6 - 60 < x
      rcases hx with rfl | rfl | rfl | rfl | rfl <;> linarith)
    (by rw [hcfg']; norm_num)
    (by rw [hsusp']; norm_num)
  have s7 := dispatch_allowed
    (setAssoc (setAssoc (setAssoc (setAssoc (setAssoc (setAssoc storage
        (ip ++ ":" ++ ep) [t1]) (ip ++ ":" ++ ep) [t1, t2])
      (ip ++ ":" ++ ep) [t1, t2, t3]) (ip ++ ":" ++ ep) [t1, t2, t3, t4])
      (ip ++ ":" ++ ep) [t1, t2, t3, t4, t5]) (ip ++ ":" ++ ep) [t1, t2, t3, t4, t5])
    blocked (setAssoc susp ip (lookupAssoc susp ip 0 + 1)) limits
    (logSecurityEvent db "rate_limit_exceeded" "medium" ip
      ("Rate limit exceeded for endpoint " ++ ep)
      { endpoint := some ep, method := some m })
    ip ep m t7 [] [t7] hblk'
    (by
      rw [lookupAssoc_setAssoc_same, hcfg']
      apply filter_drop_all
      intro x hx
      simp only [List.mem_cons, List.not_mem_nil, or_false] at hx
      show ¬(t7 - 60 < x)
      rcases hx with rfl | rfl | rfl | rfl | rfl <;> · push_neg; linarith)
    (by rw [hcfg']; norm_num) rfl
  rw [runRequests_cons _ _ _ _ _ _ _ _ _ _ s1]
  rw [runRequests_cons _ _ _ _ _ _ _ _ _ _ s2]
  rw [runRequests_cons _ _ _ _ _ _ _ _ _ _ s3]
  rw [runRequests_cons _ _ _ _ _ _ _ _ _ _ s4]
  rw [runRequests_cons _ _ _ _ _ _ _ _ _ _ s5]
  rw [runRequests_cons _ _ _ _ _ _ _ _ _ _ s6]
  rw [runRequests_cons _ _ _ _ _ _ _ _ _ _ s7]
  rfl

/-- Witness for C3: requests at 0, 10, 20, 30, 40, 50 and 110 seconds against
a limit-5 / 60-second endpoint behave as allowed ×5, limited, allowed. -/
theorem rate_limit_window_witness :
    (runRequests exMwWindow emptyDB "1.2.3.4" "/water/valve" "GET"
        [0, 10, 20, 30, 40, 50, 110]).1 =
      [.proceed, .proceed, .proceed, .proceed, .proceed, .rateLimited, .proceed] :=
  rate_limit_window_spec exMwWindow emptyDB "1.2.3.4" "/water/valve" "GET"
    0 10 20 30 40 50 110 rfl rfl rfl (by simp [exMwWindow])
    (by norm_num) (by norm_num) (by norm_num) (by norm_num) (by norm_num)
    (by norm_num) (by norm_num)

end SmartFarm
